import Mathlib

/-!
Verification of the ChromiumBuilder patching scripts
(`src/patches/apply-ungoogled-patches.py` and
`src/patches/apply-clang-optimizations.py`) against their specification.

The two scripts are shallowly embedded.  External effects (subprocess
invocations, file reads, removals) are passed in as explicit values:
a subprocess run is an `Except String Nat` (an uncaught exception with its
message, or an exit status), optionally paired with captured stdout, and the
target tree is a list of present paths.  Every embedded function mirrors the
control flow of the corresponding Python function.
-/

/-- Characters of `s.lower()` for a Python string (ASCII lowering, as
`Char.toLower`). -/
def lowerChars (s : String) : List Char :=
  s.data.map Char.toLower

/-- Python's substring test `needle in hay` on character lists. -/
def containsChars (needle : List Char) : List Char → Bool
  | [] => needle.isEmpty
  | c :: rest => needle.isPrefixOf (c :: rest) || containsChars needle rest

/-- Python's `needle in hay` for strings (as used with `.lower()` output). -/
def containsSub (needle hay : String) : Bool :=
  containsChars needle.data hay.data

namespace UngoogledPatcher

/-- Embedding of `UngoogledPatcher._apply_patch_fallback`: the result of the
`patch -p1 -i … --ignore-whitespace` subprocess is an exception or an
(exit-status, stdout) pair.  The function returns `True` exactly on exit
status zero; any exception is caught and yields `False`.  The captured
stdout is ignored by this variant of the fallback. -/
def applyPatchFallback : Except String (Nat × String) → Bool
  | .ok (0, _) => true
  | .ok (_, _) => false
  | .error _ => false

/-- Embedding of `UngoogledPatcher._apply_single_patch`.  `primary` is the
result of the `git apply --ignore-whitespace --ignore-space-change`
subprocess, `fallback` the result the `patch` subprocess would produce.
Returns the step outcome together with the number of fallback invocations:
exit 0 → `(true, 0)`; nonzero exit → the fallback is invoked exactly once;
an exception is caught and yields `(false, 0)` without a fallback attempt. -/
def applySinglePatch (primary : Except String Nat)
    (fallback : Except String (Nat × String)) : Bool × Nat :=
  match primary with
  | .ok 0 => (true, 0)
  | .ok (_ + 1) => (applyPatchFallback fallback, 1)
  | .error _ => (false, 0)

/-- One entry of a patch series: whether the listed patch file exists on
disk (`onDisk`), and the primary/fallback subprocess results it would see. -/
structure PatchEnv where
  onDisk : Bool
  primary : Except String Nat
  fallback : Except String (Nat × String)

/-- The overall outcome of `UngoogledPatcher._apply_patch_series`:
`success_count`, the number of patches for which an apply was attempted,
and the returned boolean. -/
structure SeriesRun where
  succeeded : Nat
  attempted : Nat
  passed : Bool
deriving DecidableEq, Repr

/-- Whether one series entry's apply attempt succeeds. -/
def stepOk (p : PatchEnv) : Bool :=
  (applySinglePatch p.primary p.fallback).1

/-- The `for patch_file in patch_files` loop of
`UngoogledPatcher._apply_patch_series`: a missing file is skipped
(`continue`) without an apply attempt; a failed apply returns immediately
(`return False`), so no later entry is processed.  Result:
`(success_count, apply attempts, aborted-early flag)`. -/
def seriesLoop : List PatchEnv → Nat × Nat × Bool
  | [] => (0, 0, false)
  | p :: rest =>
    if p.onDisk then
      if stepOk p then
        let (s, a, ab) := seriesLoop rest
        (s + 1, a + 1, ab)
      else (0, 1, true)
    else seriesLoop rest

/-- Embedding of `UngoogledPatcher._apply_patch_series`: run the loop; on an
early `return False` the series is not passed, otherwise it is passed iff
`success_count == total_patches` (the length of the listed series,
missing files included). -/
def applyPatchSeries (patches : List PatchEnv) : SeriesRun :=
  match seriesLoop patches with
  | (s, a, ab) => ⟨s, a, if ab then false else s == patches.length⟩

end UngoogledPatcher

/-- Python `str.strip()` on characters (drop leading and trailing
whitespace). -/
def stripChars (l : List Char) : List Char :=
  ((l.dropWhile Char.isWhitespace).reverse.dropWhile Char.isWhitespace).reverse

/-- Python `s.split('@')` on characters: split on every `'@'`. -/
def splitOnAt : List Char → List (List Char)
  | [] => [[]]
  | c :: rest =>
    let r := splitOnAt rest
    if c == '@' then [] :: r
    else
      match r with
      | h :: t => (c :: h) :: t
      | [] => [[c]]

/-- Python `s.startswith('#')` on characters. -/
def startsWithHash : List Char → Bool
  | '#' :: _ => true
  | _ => false

/-- Regex metacharacters that this development does not model.  A pattern
containing one of them unescaped falls outside the embedded fragment. -/
def metaChars : List Char :=
  ['.', '*', '+', '?', '[', ']', '(', ')', '\x7b', '\x7d', '^', '$', '|']

/-- Interpret a Python regex pattern that denotes a literal string: a
backslash escapes the following character (e.g. `\.` is a literal dot);
any unescaped metacharacter puts the pattern outside the modelled
fragment (`none`). -/
def parseLitPattern : List Char → Option (List Char)
  | [] => some []
  | ['\\'] => none
  | '\\' :: c :: rest => (parseLitPattern rest).map (fun l => c :: l)
  | c :: rest =>
    if metaChars.contains c then none
    else (parseLitPattern rest).map (fun l => c :: l)

/-- Leftmost, non-overlapping replacement of every occurrence of `needle`
by `repl` in `hay` — the behaviour of Python's `re.sub` for a literal
pattern.  `fuel` is the length of `hay`; each step consumes at least one
character, so the fuel never runs out before the text does. -/
def replaceAllAux (needle repl : List Char) : Nat → List Char → List Char
  | 0, hay => hay
  | _ + 1, [] => []
  | f + 1, c :: rest =>
    if needle.isPrefixOf (c :: rest) then
      repl ++ replaceAllAux needle repl f ((c :: rest).drop needle.length)
    else c :: replaceAllAux needle repl f rest

/-- `re.sub` for a literal (possibly escaped) pattern. -/
def replaceAll (needle repl hay : List Char) : List Char :=
  if needle.isEmpty then hay else replaceAllAux needle repl hay.length hay

namespace UngoogledPatcher

/-- One iteration of the `for regex_line in regex_defs` loop of
`UngoogledPatcher._substitute_domains_in_file`: a blank or `#`-prefixed
line is skipped, the stripped line is split on `'@'`, and only a
two-part split triggers `re.sub(pattern, replacement, content)`.
`none` marks a pattern or replacement outside the modelled regex
fragment (an unescaped metacharacter, an empty literal, or a backslash
in the replacement). -/
def applyRegexLine (content line : String) : Option String :=
  if !(stripChars line.data).isEmpty && !(startsWithHash line.data) then
    match splitOnAt (stripChars line.data) with
    | [pat, repl] =>
      match parseLitPattern pat with
      | none => none
      | some [] => none
      | some lit =>
        if repl.contains '\\' then none
        else some (String.mk (replaceAll lit repl content.data))
    | _ => some content
  else some content

/-- The full `for regex_line in regex_defs` loop: each regex line is
applied in order to the running content. -/
def applyRegexDefs (content : String) : List String → Option String
  | [] => some content
  | d :: rest =>
    match applyRegexLine content d with
    | none => none
    | some c => applyRegexDefs c rest

/-- Embedding of `UngoogledPatcher._substitute_domains_in_file`.  The
file read yields an exception or the file's content.  Result: the content
written back (`none` when no write occurs) and the returned boolean —
`true` exactly when the content changed and was written.  An exception is
caught and yields `false`.  The outer `none` marks inputs outside the
modelled regex fragment. -/
def substituteDomainsInFile (readResult : Except String String)
    (regexDefs : List String) : Option (Option String × Bool) :=
  match readResult with
  | .error _ => some (none, false)
  | .ok content =>
    match applyRegexDefs content regexDefs with
    | none => none
    | some c =>
      if c == content then some (none, false)
      else some (some c, true)

/-- The per-file loop of `UngoogledPatcher.apply_domain_substitution`.
Each entry of `files` is `none` when the listed target file does not
exist on disk, otherwise the result of reading it.  Returns
`(substituted_count, processed entries)`. -/
def domainSubLoop (regexDefs : List String) :
    List (Option (Except String String)) → Option (Nat × Nat)
  | [] => some (0, 0)
  | f :: rest => do
    let (s, n) ← domainSubLoop regexDefs rest
    match f with
    | none => pure (s, n + 1)
    | some rr =>
      let (_, changed) ← substituteDomainsInFile rr regexDefs
      pure (if changed then s + 1 else s, n + 1)

/-- Embedding of `UngoogledPatcher.apply_domain_substitution` after the
two list files are loaded (their parsing is plain I/O plumbing): run the
per-file loop and return `(substituted_count, processed entries, True)` —
the method returns `True` regardless of per-file outcomes. -/
def applyDomainSubstitution (regexDefs : List String)
    (files : List (Option (Except String String))) : Option (Nat × Nat × Bool) :=
  (domainSubLoop regexDefs files).map (fun (s, n) => (s, n, true))

/-- Embedding of the `for prune_path in prune_paths` loop of
`UngoogledPatcher.apply_pruning` together with its surrounding single
`try`.  `tree` is the list of paths present under the chromium
directory; `errs` lists the paths whose removal raises (e.g. permission
denied).  A present path is removed; an absent path is only logged; a
removal exception is caught by the `try` wrapped around the WHOLE loop,
so it ends the phase immediately with `False`.  Result: the resulting
tree, the number of prune paths processed, and the returned boolean. -/
def applyPruning (errs tree : List String) :
    List String → List String × Nat × Bool
  | [] => (tree, 0, true)
  | p :: rest =>
    if p ∈ tree then
      if p ∈ errs then (tree, 1, false)
      else
        match applyPruning errs (tree.filter (fun q => !(q == p))) rest with
        | (t, n, b) => (t, n + 1, b)
    else
      match applyPruning errs tree rest with
      | (t, n, b) => (t, n + 1, b)

end UngoogledPatcher


namespace ClangOptimizer

/-- Embedding of `ClangOptimizer._apply_patch_fallback`: `patch -p1 -i …
--ignore-whitespace --reject-file=-`.  Exit status zero returns `True`;
on a nonzero exit the tool's stdout is checked — `"succeeded" in
result.stdout.lower()` makes a partial application count as success;
an exception is caught and yields `False`. -/
def applyPatchFallback : Except String (Nat × String) → Bool
  | .ok (0, _) => true
  | .ok (_ + 1, out) => containsChars "succeeded".data (lowerChars out)
  | .error _ => false

/-- Embedding of `ClangOptimizer._apply_patch` (primary `git apply
--ignore-whitespace --ignore-space-change --reject`), with the number of
fallback invocations: exit 0 → `(true, 0)`; nonzero exit → one fallback
attempt; an exception is caught and yields `(false, 0)`. -/
def applyPatch (primary : Except String Nat)
    (fallback : Except String (Nat × String)) : Bool × Nat :=
  match primary with
  | .ok 0 => (true, 0)
  | .ok (_ + 1) => (applyPatchFallback fallback, 1)
  | .error _ => (false, 0)

/-- One optimization patch's environment: the primary and fallback
subprocess results it would see. -/
structure PatchEnv where
  primary : Except String Nat
  fallback : Except String (Nat × String)

/-- Whether one optimization patch applies (primary or fallback). -/
def stepOk (p : PatchEnv) : Bool :=
  (applyPatch p.primary p.fallback).1

/-- The best-effort patch loop shared by `apply_v8_optimizations`,
`apply_windows_optimizations` and `apply_linux_optimizations`: every
patch in the list is attempted regardless of earlier outcomes.  Result:
`(success_count, patches attempted)`. -/
def bestEffortLoop : List PatchEnv → Nat × Nat
  | [] => (0, 0)
  | p :: rest =>
    match bestEffortLoop rest with
    | (s, a) => (if stepOk p then s + 1 else s, a + 1)

/-- Embedding of `ClangOptimizer.apply_v8_optimizations`: missing patch
directory → `False`; otherwise run the best-effort loop over the globbed
patches and return `success_count > 0`. -/
def applyV8Optimizations (dirFound : Bool) (patches : List PatchEnv) : Bool :=
  if dirFound then decide (0 < (bestEffortLoop patches).1) else false

/-- Embedding of `ClangOptimizer.setup_custom_toolchain`: when the update
script exists its subprocess result is inspected, but every branch —
exit zero, nonzero exit ("had issues, continuing"), missing script, and
a caught exception — returns `True`. -/
def setupCustomToolchain (scriptFound : Bool) (run : Except String Nat) : Bool :=
  if scriptFound then
    match run with
    | .ok 0 => true
    | .ok (_ + 1) => true
    | .error _ => true
  else true

/-- Whether the single toolchain-setup subprocess actually succeeded
(exit status zero) — the step's contribution to a succeeded count. -/
def toolchainStepSucceeded : Except String Nat → Bool
  | .ok 0 => true
  | _ => false

/-- One verification probe of `ClangOptimizer.verify_optimizations`: the
target file (`none` when absent, otherwise its read result) and the
marker searched for with `marker.lower() in content.lower()`. -/
def probeHit : Option (Except String String) × String → Bool
  | (some (.ok content), marker) =>
      containsChars (lowerChars marker) (lowerChars content)
  | _ => false

/-- The `verified_count` of `ClangOptimizer.verify_optimizations`: file
probes plus the extra `args.gn` check (`"thin_lto" in content and
"polly" in content` after lowering). -/
def verifiedCount (probes : List (Option (Except String String) × String))
    (argsGn : Option (Except String String)) : Nat :=
  probes.countP (fun pr => probeHit pr) +
    match argsGn with
    | some (.ok content) =>
        if containsChars "thin_lto".data (lowerChars content) &&
            containsChars "polly".data (lowerChars content) then 1 else 0
    | _ => 0

/-- Embedding of `ClangOptimizer.verify_optimizations`: returns
`verified_count > 0`. -/
def verifyOptimizations (probes : List (Option (Except String String) × String))
    (argsGn : Option (Except String String)) : Bool :=
  decide (0 < verifiedCount probes argsGn)

end ClangOptimizer

/-- The phase loop shared by both `run_all` methods: each listed phase is
run in order and its name is appended to `success_steps` when it returns
`True`.  Result: the ordered list of phase names attempted and the
ordered `success_steps` list. -/
def orchestrate : List (String × Bool) → List String × List String
  | [] => ([], [])
  | (n, r) :: rest =>
    match orchestrate rest with
    | (att, suc) => (n :: att, if r then n :: suc else suc)

namespace UngoogledPatcher

/-- The seven phases of `UngoogledPatcher.run_all` in source order,
with `r i` the boolean returned by the i-th phase method. -/
def phases (r : Fin 7 → Bool) : List (String × Bool) :=
  [("core patches", r 0), ("extra patches", r 1), ("inox patches", r 2),
   ("domain substitution", r 3), ("pruning", r 4), ("build flags", r 5),
   ("verification", r 6)]

/-- Embedding of `UngoogledPatcher.run_all`: run all seven phases and
return `len(success_steps) >= 5`. -/
def runAll (r : Fin 7 → Bool) : Bool :=
  decide (5 ≤ (orchestrate (phases r)).2.length)

/-- Embedding of `main`'s `sys.exit(0 if success else 1)`. -/
def mainExit (r : Fin 7 → Bool) : Nat :=
  if runAll r then 0 else 1

end UngoogledPatcher

namespace ClangOptimizer

/-- The six phases of `ClangOptimizer.run_all` in source order. -/
def phases (r : Fin 6 → Bool) : List (String × Bool) :=
  [("V8 optimizations", r 0), ("Windows optimizations", r 1),
   ("cross-platform optimizations", r 2), ("build configuration", r 3),
   ("custom toolchain", r 4), ("verification", r 5)]

/-- Embedding of `ClangOptimizer.run_all`: run all six phases and return
`len(success_steps) >= 4`. -/
def runAll (r : Fin 6 → Bool) : Bool :=
  decide (4 ≤ (orchestrate (phases r)).2.length)

/-- Embedding of `main`'s `sys.exit(0 if success else 1)`. -/
def mainExit (r : Fin 6 → Bool) : Nat :=
  if runAll r then 0 else 1

end ClangOptimizer

/-! ## Helper lemmas -/

theorem filter_length_lt_of_mem_not {α} (f : α → Bool) (l : List α)
    (h : ∃ x ∈ l, f x = false) : (l.filter f).length < l.length := by
  induction l with
  | nil => simp at h
  | cons a l ih =>
    rcases h with ⟨x, hx, hfx⟩
    rcases List.mem_cons.mp hx with rfl | hx
    · rw [List.filter_cons, if_neg (by simp [hfx])]
      exact Nat.lt_succ_of_le (List.length_filter_le f l)
    · by_cases ha : f a = true
      · rw [List.filter_cons, if_pos ha, List.length_cons, List.length_cons]
        exact Nat.succ_lt_succ (ih ⟨x, hx, hfx⟩)
      · rw [List.filter_cons, if_neg ha]
        exact Nat.lt_succ_of_le (List.length_filter_le f l)

theorem orchestrate_fst (l : List (String × Bool)) :
    (orchestrate l).1 = l.map Prod.fst := by
  induction l with
  | nil => rfl
  | cons x l ih =>
    obtain ⟨n, r⟩ := x
    simp [orchestrate, ih]

theorem orchestrate_snd_length (l : List (String × Bool)) :
    (orchestrate l).2.length = l.countP (fun x => x.2) := by
  induction l with
  | nil => rfl
  | cons x l ih =>
    obtain ⟨n, r⟩ := x
    cases r <;> simp [orchestrate, ih, List.countP_cons]

namespace UngoogledPatcher

theorem seriesLoop_abort (pre : List PatchEnv) (p : PatchEnv) (post : List PatchEnv)
    (hpre : ∀ q ∈ pre, q.onDisk = true ∧ stepOk q = true)
    (hdisk : p.onDisk = true) (hfail : stepOk p = false) :
    seriesLoop (pre ++ p :: post) = (pre.length, pre.length + 1, true) := by
  induction pre with
  | nil => simp [seriesLoop, hdisk, hfail]
  | cons q pre ih =>
    have hq := hpre q (List.mem_cons_self q pre)
    have hrest : ∀ x ∈ pre, x.onDisk = true ∧ stepOk x = true :=
      fun x hx => hpre x (List.mem_cons_of_mem q hx)
    simp [seriesLoop, hq.1, hq.2, ih hrest]

theorem seriesLoop_allOk (patches : List PatchEnv)
    (hok : ∀ q ∈ patches, q.onDisk = true → stepOk q = true) :
    seriesLoop patches = ((patches.filter (fun q => q.onDisk)).length,
      (patches.filter (fun q => q.onDisk)).length, false) := by
  induction patches with
  | nil => rfl
  | cons p rest ih =>
    have hrest : ∀ q ∈ rest, q.onDisk = true → stepOk q = true :=
      fun x hx => hok x (List.mem_cons_of_mem p hx)
    by_cases hd : p.onDisk = true
    · simp [seriesLoop, hd, hok p (List.mem_cons_self p rest) hd, ih hrest,
        List.filter_cons]
    · have hd' : p.onDisk = false := by simpa using hd
      simp [seriesLoop, hd', ih hrest, List.filter_cons]

end UngoogledPatcher

/-! ## Claim theorems -/

namespace UngoogledPatcher

/-- C1: for an AllOrNothing patch series (core/extra/inox), when every
patch listed before `p` exists on disk and applies, and `p` exists but
fails both the primary and the fallback method, the series runner
returns immediately: the apply attempts number `pre.length + 1` (the
index of the first failure plus one — nothing after `p` is attempted),
the successes number `pre.length`, and the series is reported not
passed. -/
theorem allOrNothing_abortsOnFailure (pre : List PatchEnv) (p : PatchEnv)
    (post : List PatchEnv)
    (hpre : ∀ q ∈ pre, q.onDisk = true ∧ stepOk q = true)
    (hdisk : p.onDisk = true) (hfail : stepOk p = false) :
    applyPatchSeries (pre ++ p :: post) = ⟨pre.length, pre.length + 1, false⟩ := by
  simp [applyPatchSeries, seriesLoop_abort pre p post hpre hdisk hfail]

/-- Witness for C1: a three-patch series whose second patch fails both
methods stops after two attempts with one success and does not pass. -/
theorem allOrNothing_abortsOnFailure_witness :
    applyPatchSeries [⟨true, .ok 0, .ok (0, "")⟩, ⟨true, .ok 1, .ok (1, "")⟩,
      ⟨true, .ok 0, .ok (0, "")⟩] = ⟨1, 2, false⟩ :=
  allOrNothing_abortsOnFailure [⟨true, .ok 0, .ok (0, "")⟩]
    ⟨true, .ok 1, .ok (1, "")⟩ [⟨true, .ok 0, .ok (0, "")⟩]
    (by decide) (by decide) (by decide)

/-- C10: when some listed patch file is missing from disk and every patch
that does exist applies successfully, the series loop skips the missing
entries without aborting — every on-disk patch is attempted — yet the
series is reported not passed, because the missing entries count toward
`total_patches` but not toward `success_count`. -/
theorem missingPatchSkippedButSinksSeries (patches : List PatchEnv)
    (hok : ∀ q ∈ patches, q.onDisk = true → stepOk q = true)
    (hmiss : ∃ q ∈ patches, q.onDisk = false) :
    applyPatchSeries patches =
      ⟨(patches.filter (fun q => q.onDisk)).length,
        (patches.filter (fun q => q.onDisk)).length, false⟩ := by
  have hlt := filter_length_lt_of_mem_not (fun q => q.onDisk) patches hmiss
  have hne : ((patches.filter (fun q => q.onDisk)).length == patches.length) = false :=
    by simpa using Nat.ne_of_lt hlt
  simp [applyPatchSeries, seriesLoop_allOk patches hok, hne]

/-- Witness for C10: a two-patch series whose first file is missing and
whose second applies: one attempt, one success, series not passed. -/
theorem missingPatchSkippedButSinksSeries_witness :
    applyPatchSeries [⟨false, .ok 0, .ok (0, "")⟩, ⟨true, .ok 0, .ok (0, "")⟩] =
      ⟨1, 1, false⟩ :=
  missingPatchSkippedButSinksSeries
    [⟨false, .ok 0, .ok (0, "")⟩, ⟨true, .ok 0, .ok (0, "")⟩]
    (by decide) (by decide)

end UngoogledPatcher

/-- C2 (amended): for the best-effort patch groups (V8, and the same loop
shape used for the Windows and cross-platform groups) every patch is
attempted regardless of earlier outcomes and the group passes iff
`succeeded_count > 0`; the verification phase likewise passes iff its
verified count is positive; but `setup_custom_toolchain` is reported
passed unconditionally — every branch, including a failing subprocess
and a caught exception, returns `True`. -/
theorem bestEffortSeriesRule :
    (∀ (dirFound : Bool) (ps : List ClangOptimizer.PatchEnv),
      ClangOptimizer.applyV8Optimizations dirFound ps = true ↔
        (dirFound = true ∧ 0 < (ClangOptimizer.bestEffortLoop ps).1)) ∧
    (∀ ps : List ClangOptimizer.PatchEnv,
      (ClangOptimizer.bestEffortLoop ps).2 = ps.length) ∧
    (∀ (scriptFound : Bool) (run : Except String Nat),
      ClangOptimizer.setupCustomToolchain scriptFound run = true) ∧
    (∀ (probes : List (Option (Except String String) × String))
      (argsGn : Option (Except String String)),
      ClangOptimizer.verifyOptimizations probes argsGn = true ↔
        0 < ClangOptimizer.verifiedCount probes argsGn) := by
  refine ⟨fun dirFound ps => ?_, fun ps => ?_, fun scriptFound run => ?_,
    fun probes argsGn => ?_⟩
  · cases dirFound <;> simp [ClangOptimizer.applyV8Optimizations]
  · induction ps with
    | nil => rfl
    | cons p rest ih => simp [ClangOptimizer.bestEffortLoop, ih]
  · cases scriptFound <;> rcases run with e | n
    · rfl
    · rfl
    · rfl
    · rcases n with _ | n <;> rfl
  · simp [ClangOptimizer.verifyOptimizations]

/-- Counterexample to C2 as stated: the toolchain-setup series is reported
passed although its only step — the `update.py` subprocess — failed, so
`passed ⇔ succeeded_count > 0` does not hold for it. -/
theorem toolchainPassesWithZeroSuccesses :
    ClangOptimizer.setupCustomToolchain true (.error "update.py crashed") = true ∧
    ClangOptimizer.toolchainStepSucceeded (.error "update.py crashed") = false ∧
    ClangOptimizer.setupCustomToolchain true (.ok 1) = true ∧
    ClangOptimizer.toolchainStepSucceeded (.ok 1) = false :=
  ⟨rfl, rfl, rfl, rfl⟩

/-- C3: both pipeline verdicts are threshold rules — `run_all` passes iff
at least 5 of the 7 ungoogled phases (resp. 4 of the 6 optimization
phases) returned `True` — the process exit status is `0` exactly when the
verdict passes (and is `1` otherwise), and the concrete 7-phase scenario
where phases 1,2,3,5,6 pass and 4,7 fail exits with code 0. -/
theorem pipelineVerdictThreshold :
    (∀ r : Fin 7 → Bool,
      (UngoogledPatcher.runAll r = true ↔
        5 ≤ (UngoogledPatcher.phases r).countP (fun ph => ph.2)) ∧
      (UngoogledPatcher.mainExit r = 0 ↔ UngoogledPatcher.runAll r = true) ∧
      (UngoogledPatcher.mainExit r = 0 ∨ UngoogledPatcher.mainExit r = 1)) ∧
    (∀ r : Fin 6 → Bool,
      (ClangOptimizer.runAll r = true ↔
        4 ≤ (ClangOptimizer.phases r).countP (fun ph => ph.2)) ∧
      (ClangOptimizer.mainExit r = 0 ↔ ClangOptimizer.runAll r = true) ∧
      (ClangOptimizer.mainExit r = 0 ∨ ClangOptimizer.mainExit r = 1)) ∧
    UngoogledPatcher.mainExit (fun i => !(i.val == 3 || i.val == 6)) = 0 := by
  refine ⟨fun r => ⟨?_, ?_, ?_⟩, fun r => ⟨?_, ?_, ?_⟩, by decide⟩
  · simp [UngoogledPatcher.runAll, orchestrate_snd_length]
  · unfold UngoogledPatcher.mainExit
    cases h : UngoogledPatcher.runAll r <;> simp [h]
  · unfold UngoogledPatcher.mainExit
    cases h : UngoogledPatcher.runAll r <;> simp [h]
  · simp [ClangOptimizer.runAll, orchestrate_snd_length]
  · unfold ClangOptimizer.mainExit
    cases h : ClangOptimizer.runAll r <;> simp [h]
  · unfold ClangOptimizer.mainExit
    cases h : ClangOptimizer.runAll r <;> simp [h]

/-- C9: phase transitions are unconditional — in both `run_all` methods
the ordered list of phases attempted is the full fixed phase list, each
exactly once, for every assignment of phase outcomes. -/
theorem phasesAttemptedUnconditionally :
    (∀ r : Fin 7 → Bool,
      (orchestrate (UngoogledPatcher.phases r)).1 =
        ["core patches", "extra patches", "inox patches",
         "domain substitution", "pruning", "build flags", "verification"] ∧
      (orchestrate (UngoogledPatcher.phases r)).1.Nodup) ∧
    (∀ r : Fin 6 → Bool,
      (orchestrate (ClangOptimizer.phases r)).1 =
        ["V8 optimizations", "Windows optimizations",
         "cross-platform optimizations", "build configuration",
         "custom toolchain", "verification"] ∧
      (orchestrate (ClangOptimizer.phases r)).1.Nodup) := by
  constructor
  · intro r
    have h : (orchestrate (UngoogledPatcher.phases r)).1 =
        ["core patches", "extra patches", "inox patches",
         "domain substitution", "pruning", "build flags", "verification"] := by
      rw [orchestrate_fst]; rfl
    exact ⟨h, by rw [h]; decide⟩
  · intro r
    have h : (orchestrate (ClangOptimizer.phases r)).1 =
        ["V8 optimizations", "Windows optimizations",
         "cross-platform optimizations", "build configuration",
         "custom toolchain", "verification"] := by
      rw [orchestrate_fst]; rfl
    exact ⟨h, by rw [h]; decide⟩

/-- C4 (amended): in both scripts, a zero primary exit status yields
Success with no fallback invocation; a nonzero primary exit status causes
exactly one fallback invocation, whose result is the step's outcome; and
the outcome is Failure only when either the primary invocation raised an
exception (which is caught and returned as Failure without a fallback
attempt) or the primary exited nonzero and the fallback also failed. -/
theorem patchFallbackProtocol :
    ∀ (primary : Except String Nat) (fb : Except String (Nat × String)),
      (primary = .ok 0 →
        UngoogledPatcher.applySinglePatch primary fb = (true, 0) ∧
        ClangOptimizer.applyPatch primary fb = (true, 0)) ∧
      (∀ n, primary = .ok (n + 1) →
        (UngoogledPatcher.applySinglePatch primary fb).2 = 1 ∧
        (UngoogledPatcher.applySinglePatch primary fb).1 =
          UngoogledPatcher.applyPatchFallback fb ∧
        (ClangOptimizer.applyPatch primary fb).2 = 1 ∧
        (ClangOptimizer.applyPatch primary fb).1 =
          ClangOptimizer.applyPatchFallback fb) ∧
      ((UngoogledPatcher.applySinglePatch primary fb).1 = false →
        (∃ e, primary = .error e) ∨
          ((∃ n, primary = .ok (n + 1)) ∧
            UngoogledPatcher.applyPatchFallback fb = false)) ∧
      ((ClangOptimizer.applyPatch primary fb).1 = false →
        (∃ e, primary = .error e) ∨
          ((∃ n, primary = .ok (n + 1)) ∧
            ClangOptimizer.applyPatchFallback fb = false)) := by
  intro primary fb
  refine ⟨?_, ?_, ?_, ?_⟩
  · rintro rfl; exact ⟨rfl, rfl⟩
  · rintro n rfl; exact ⟨rfl, rfl, rfl, rfl⟩
  · rcases primary with e | n
    · exact fun _ => .inl ⟨e, rfl⟩
    · rcases n with _ | n
      · intro h; exact absurd h (by simp [UngoogledPatcher.applySinglePatch])
      · intro h
        exact .inr ⟨⟨n, rfl⟩, by
          simpa [UngoogledPatcher.applySinglePatch] using h⟩
  · rcases primary with e | n
    · exact fun _ => .inl ⟨e, rfl⟩
    · rcases n with _ | n
      · intro h; exact absurd h (by simp [ClangOptimizer.applyPatch])
      · intro h
        exact .inr ⟨⟨n, rfl⟩, by simpa [ClangOptimizer.applyPatch] using h⟩

/-- Witness for C4 (amended): a primary exit 0 succeeds with no fallback
attempt, and a primary exit 2 triggers exactly one fallback attempt. -/
theorem patchFallbackProtocol_witness :
    UngoogledPatcher.applySinglePatch (.ok 0) (.ok (1, "")) = (true, 0) ∧
    (UngoogledPatcher.applySinglePatch (.ok 2) (.ok (1, ""))).2 = 1 :=
  ⟨((patchFallbackProtocol (.ok 0) (.ok (1, ""))).1 rfl).1,
   ((patchFallbackProtocol (.ok 2) (.ok (1, ""))).2.1 1 rfl).1⟩

/-- Counterexample to C4 as stated: when the primary invocation raises an
exception, the step's outcome is Failure with zero fallback attempts,
although the fallback method (had it been invoked) would have
succeeded — so Failure does not occur only when both methods fail. -/
theorem primaryExceptionFailsWithoutFallback :
    UngoogledPatcher.applySinglePatch (.error "subprocess raised OSError")
      (.ok (0, "")) = (false, 0) ∧
    UngoogledPatcher.applyPatchFallback (.ok (0, "")) = true :=
  ⟨rfl, rfl⟩

/-- C5 (amended): only the optimization script treats a partially applied
fallback as a soft success: when the fallback tool exits nonzero but its
stdout (lowercased) contains "succeeded", `ClangOptimizer`'s fallback
returns success, and such a step is counted toward the best-effort
`succeeded_count`; `UngoogledPatcher`'s fallback returns Failure on every
nonzero exit status regardless of the tool's output. -/
theorem fallbackPartialApplication :
    (∀ (n : Nat) (out : String),
      containsChars "succeeded".data (lowerChars out) = true →
      ClangOptimizer.applyPatchFallback (.ok (n + 1, out)) = true) ∧
    (∀ (n : Nat) (out : String),
      UngoogledPatcher.applyPatchFallback (.ok (n + 1, out)) = false) ∧
    (∀ (p : ClangOptimizer.PatchEnv) (ps : List ClangOptimizer.PatchEnv),
      ClangOptimizer.stepOk p = true →
      (ClangOptimizer.bestEffortLoop (p :: ps)).1 =
        (ClangOptimizer.bestEffortLoop ps).1 + 1) := by
  refine ⟨fun n out h => h, fun n out => rfl, fun p ps h => ?_⟩
  rcases hbe : ClangOptimizer.bestEffortLoop ps with ⟨s, a⟩
  simp [ClangOptimizer.bestEffortLoop, hbe, h]

/-- Witness for C5 (amended): a fallback exit 1 whose stdout reports
"1 out of 2 hunks succeeded" is a soft success in the optimization
script. -/
theorem fallbackPartialApplication_witness :
    ClangOptimizer.applyPatchFallback (.ok (1, "1 out of 2 hunks succeeded")) =
      true :=
  fallbackPartialApplication.1 0 "1 out of 2 hunks succeeded" (by decide)

/-- Counterexample to C5 as stated: on the same partial-application
fallback result (exit 1, stdout reporting succeeded hunks) the ungoogled
script records Failure while the optimization script records success, so
not every PatchApply step treats partial application as a soft
success. -/
theorem ungoogledFallbackIgnoresPartialSuccess :
    UngoogledPatcher.applyPatchFallback
      (.ok (1, "1 out of 2 hunks succeeded")) = false ∧
    ClangOptimizer.applyPatchFallback
      (.ok (1, "1 out of 2 hunks succeeded")) = true :=
  ⟨rfl, by decide⟩

namespace UngoogledPatcher

theorem applyPruning_false_implies_err (errs : List String) :
    ∀ (paths tree : List String),
      (applyPruning errs tree paths).2.2 = false →
      ∃ q ∈ paths, q ∈ tree ∧ q ∈ errs := by
  intro paths
  induction paths with
  | nil => intro tree h; simp [applyPruning] at h
  | cons p rest ih =>
    intro tree h
    by_cases hp : p ∈ tree
    · by_cases he : p ∈ errs
      · exact ⟨p, List.mem_cons_self p rest, hp, he⟩
      · rcases hres : applyPruning errs (tree.filter (fun q => !(q == p))) rest
          with ⟨t, n, b⟩
        simp [applyPruning, hp, he, hres] at h
        obtain ⟨q, hq, hqt, hqe⟩ := ih (tree.filter (fun q => !(q == p)))
          (by rw [hres]; exact h)
        exact ⟨q, List.mem_cons_of_mem p hq, (List.mem_filter.mp hqt).1, hqe⟩
    · rcases hres : applyPruning errs tree rest with ⟨t, n, b⟩
      simp [applyPruning, hp, hres] at h
      obtain ⟨q, hq, hqt, hqe⟩ := ih tree (by rw [hres]; exact h)
      exact ⟨q, List.mem_cons_of_mem p hq, hqt, hqe⟩

/-- C6: pruning is idempotent — when the target path is absent the step
succeeds without touching the tree; for a path whose removal does not
raise, running the prune step twice on the same path yields success both
times; and the pruning phase returns Failure only when some listed path
is present and its removal raises (e.g. permission denied). -/
theorem pruneIdempotent (errs tree : List String) (p : String)
    (hp : p ∉ errs) :
    (p ∉ tree → applyPruning errs tree [p] = (tree, 1, true)) ∧
    (applyPruning errs tree [p]).2.2 = true ∧
    (applyPruning errs (applyPruning errs tree [p]).1 [p]).2.2 = true ∧
    (∀ paths, (applyPruning errs tree paths).2.2 = false →
      ∃ q ∈ paths, q ∈ tree ∧ q ∈ errs) := by
  refine ⟨?_, ?_, ?_, fun paths => applyPruning_false_implies_err errs paths tree⟩
  · intro habs; simp [applyPruning, habs]
  · by_cases ht : p ∈ tree
    · simp [applyPruning, ht, hp]
    · simp [applyPruning, ht]
  · by_cases ht : p ∈ tree
    · have hnot : p ∉ tree.filter (fun q => !(q == p)) := by
        simp [List.mem_filter]
      simp [applyPruning, ht, hp, hnot]
    · simp [applyPruning, ht]

/-- Witness for C6: pruning the path "a" from the tree ["a"] succeeds, and
pruning it again from the resulting tree succeeds as well. -/
theorem pruneIdempotent_witness :
    (applyPruning [] ["a"] ["a"]).2.2 = true ∧
    (applyPruning [] (applyPruning [] ["a"] ["a"]).1 ["a"]).2.2 = true :=
  ⟨(pruneIdempotent [] ["a"] "a" (by simp)).2.1,
   (pruneIdempotent [] ["a"] "a" (by simp)).2.2.1⟩

/-- C7: with the single regex pair `example\.com@example.invalid`, the
first run on a file containing `https://example.com/x` rewrites it to
`https://example.invalid/x` and writes it back (the phase reports success
with one substituted file); the second run finds no match, performs no
write, and the phase again reports success. -/
theorem domainSubstitutionScenario :
    applyRegexDefs "https://example.com/x" ["example\\.com@example.invalid"] =
      some "https://example.invalid/x" ∧
    substituteDomainsInFile (.ok "https://example.com/x")
      ["example\\.com@example.invalid"] =
      some (some "https://example.invalid/x", true) ∧
    substituteDomainsInFile (.ok "https://example.invalid/x")
      ["example\\.com@example.invalid"] = some (none, false) ∧
    applyDomainSubstitution ["example\\.com@example.invalid"]
      [some (.ok "https://example.com/x")] = some (1, 1, true) ∧
    applyDomainSubstitution ["example\\.com@example.invalid"]
      [some (.ok "https://example.invalid/x")] = some (0, 1, true) := by
  decide

theorem domainSubLoop_processed (defs : List String) :
    ∀ (files : List (Option (Except String String))) (s n : Nat),
      domainSubLoop defs files = some (s, n) → n = files.length := by
  intro files
  induction files with
  | nil =>
    intro s n h
    simp only [domainSubLoop, Option.some.injEq, Prod.mk.injEq] at h
    exact h.2.symm
  | cons f rest ih =>
    intro s n h
    rcases hrest : domainSubLoop defs rest with _ | ⟨s', n'⟩
    · simp [domainSubLoop, hrest] at h
    · have hn' := ih s' n' hrest
      rcases f with _ | rr
      · simp [domainSubLoop, hrest] at h
        simp [← h.2, hn']
      · rcases hsub : substituteDomainsInFile rr defs with _ | ⟨w, changed⟩
        · simp [domainSubLoop, hrest, hsub] at h
        · simp [domainSubLoop, hrest, hsub] at h
          simp [← h.2, hn']

end UngoogledPatcher

/-- C8 (amended): per-step exceptions are caught and converted to Failure
in patch application (no fallback attempt, series not crashed) and in
per-file domain substitution (the per-file loop processes every listed
file and the phase returns success regardless of per-file failures); but
an exception while removing one prune path is caught by the `try` around
the whole pruning loop, so it ends the pruning phase immediately with
Failure and the remaining prune paths are never attempted. -/
theorem exceptionsCaughtPerStep :
    (∀ (msg : String) (fb : Except String (Nat × String)),
      UngoogledPatcher.applySinglePatch (.error msg) fb = (false, 0)) ∧
    (∀ (defs : List String) (e : String),
      UngoogledPatcher.substituteDomainsInFile (.error e) defs =
        some (none, false)) ∧
    (∀ (defs : List String) (files : List (Option (Except String String)))
      (s n : Nat) (b : Bool),
      UngoogledPatcher.applyDomainSubstitution defs files = some (s, n, b) →
      n = files.length ∧ b = true) ∧
    (∀ (errs tree : List String) (p : String) (rest : List String),
      p ∈ tree → p ∈ errs →
      UngoogledPatcher.applyPruning errs tree (p :: rest) = (tree, 1, false)) := by
  refine ⟨fun msg fb => rfl, fun defs e => rfl, ?_, ?_⟩
  · intro defs files s n b h
    rcases hl : UngoogledPatcher.domainSubLoop defs files with _ | ⟨s', n'⟩
    · simp [UngoogledPatcher.applyDomainSubstitution, hl] at h
    · have h' : some ((s', n', true) : Nat × Nat × Bool) = some (s, n, b) := by
        rw [← h]
        simp [UngoogledPatcher.applyDomainSubstitution, hl]
      simp only [Option.some.injEq, Prod.mk.injEq] at h'
      refine ⟨?_, h'.2.2.symm⟩
      rw [← h'.2.1]
      exact UngoogledPatcher.domainSubLoop_processed defs files s' n' hl
  · intro errs tree p rest hp he
    simp [UngoogledPatcher.applyPruning, hp, he]

/-- Witness for C8 (amended): a per-file read exception still lets the
substitution loop process the whole file list with the phase passing, and
a pruning removal exception on a present, erroring path fails the phase
after one processed path. -/
theorem exceptionsCaughtPerStep_witness :
    ((1 : Nat) = ([some (Except.error "io")] :
        List (Option (Except String String))).length ∧ true = true) ∧
    UngoogledPatcher.applyPruning ["x"] ["x"] ["x", "y"] = (["x"], 1, false) :=
  ⟨exceptionsCaughtPerStep.2.2.1 [] [some (Except.error "io")] 0 1 true
      (by decide),
   exceptionsCaughtPerStep.2.2.2 ["x"] ["x"] "x" ["y"] (by simp) (by simp)⟩

/-- Counterexample to C8 as stated: with two listed prune paths both
present in the tree and the first one's removal raising, the pruning
phase stops after processing only the first path — the second prune step
is never attempted — and reports Failure, so a per-step exception does
abort the enclosing series. -/
theorem pruningExceptionAbortsPhase :
    UngoogledPatcher.applyPruning ["third_party/a"]
      ["third_party/a", "third_party/b"]
      ["third_party/a", "third_party/b"] =
      (["third_party/a", "third_party/b"], 1, false) := by
  decide
